import Mathlib

/-!
# GATT discovery session state of `btle/btle_discovery.h`

A shallow embedding of the discovered-entity records and of the session
state of `NordicServiceDiscovery`, followed by the properties of its inline
member functions.

Machine integers are natural numbers; `uint8_t` arithmetic is written with an
explicit `% 256`, and a one-bit unsigned bit-field stores its initialiser
modulo `2`.
-/

/-- Type `ShortUUIDBytes_t` of `UUID.h`: a 16-bit short UUID. -/
abbrev ShortUUIDBytes_t := Nat

/-- Type `Gap::Handle_t` of `Gap.h`: a 16-bit attribute or connection handle. -/
abbrev Gap.Handle_t := Nat

/-- Modelled from the spec: the class `UUID` of `UUID.h` is not part of this
header; the session only stores the two filter values, so a UUID is carried as
an uninterpreted number. -/
abbrev UUID := Nat

/-- Record `DiscoveredService`: one service and its handle range. -/
structure DiscoveredService where
  uuid : ShortUUIDBytes_t
  startHandle : Gap.Handle_t
  endHandle : Gap.Handle_t
  deriving DecidableEq, Repr

namespace DiscoveredService

/-- The record all of whose bytes are zero, as left by `memset(.., 0, ..)`. -/
def zeroed : DiscoveredService :=
  { uuid := 0, startHandle := 0, endHandle := 0 }

/-- Member function `DiscoveredService::setup`. -/
def setup (_self : DiscoveredService) (uuidIn : ShortUUIDBytes_t)
    (start : Gap.Handle_t) (endH : Gap.Handle_t) : DiscoveredService :=
  { uuid := uuidIn, startHandle := start, endHandle := endH }

end DiscoveredService

/-- Record `DiscoveredCharacteristic::Properties_t`: seven bit-fields `uint8_t f : 1`,
each holding `0` or `1`. -/
structure Properties_t where
  broadcast : Nat
  read : Nat
  write_wo_resp : Nat
  write : Nat
  notify : Nat
  indicate : Nat
  auth_signed_wr : Nat
  deriving DecidableEq, Repr

namespace Properties_t

/-- The seven mask constants of `Properties_t`. -/
def BROADCAST_PROPERTY_MASK : Nat := 0x01
def READ_PROPERTY_MASK : Nat := 0x02
def WRITE_WO_RESPONSE_PROPERTY_MASK : Nat := 0x04
def WRITE_PROPERTY_MASK : Nat := 0x08
def NOTIFY_PROPERTY_MASK : Nat := 0x10
def INDICATE_PROPERTY_MASK : Nat := 0x20
def AUTH_SIGNED_PROPERTY_MASK : Nat := 0x40

/-- Storing the value `v` into an unsigned bit-field of width one keeps the
value modulo `2 ^ 1`. -/
def bitfield1 (v : Nat) : Nat := v % 2

/-- Constructor `Properties_t()`: all flags cleared. -/
def init : Properties_t :=
  { broadcast := 0, read := 0, write_wo_resp := 0, write := 0, notify := 0,
    indicate := 0, auth_signed_wr := 0 }

/-- Constructor `Properties_t(uint8_t props)`: every member is initialised from
`props & MASK`, converted to the one-bit field. -/
def initProps (props : Nat) : Properties_t :=
  { broadcast := bitfield1 (props &&& BROADCAST_PROPERTY_MASK)
    read := bitfield1 (props &&& READ_PROPERTY_MASK)
    write_wo_resp := bitfield1 (props &&& WRITE_WO_RESPONSE_PROPERTY_MASK)
    write := bitfield1 (props &&& WRITE_PROPERTY_MASK)
    notify := bitfield1 (props &&& NOTIFY_PROPERTY_MASK)
    indicate := bitfield1 (props &&& INDICATE_PROPERTY_MASK)
    auth_signed_wr := bitfield1 (props &&& AUTH_SIGNED_PROPERTY_MASK) }

end Properties_t

/-- Record `DiscoveredCharacteristic`. -/
structure DiscoveredCharacteristic where
  uuid : ShortUUIDBytes_t
  props : Properties_t
  declHandle : Gap.Handle_t
  valueHandle : Gap.Handle_t
  deriving DecidableEq, Repr

namespace DiscoveredCharacteristic

/-- The record all of whose bytes are zero, as left by `memset(.., 0, ..)`. -/
def zeroed : DiscoveredCharacteristic :=
  { uuid := 0, props := Properties_t.init, declHandle := 0, valueHandle := 0 }

/-- Member function `DiscoveredCharacteristic::setup`. -/
def setup (_self : DiscoveredCharacteristic) (uuidIn : ShortUUIDBytes_t)
    (propsIn : Properties_t) (declHandleIn : Gap.Handle_t)
    (valueHandleIn : Gap.Handle_t) : DiscoveredCharacteristic :=
  { uuid := uuidIn, props := propsIn, declHandle := declHandleIn,
    valueHandle := valueHandleIn }

end DiscoveredCharacteristic

/-- Constant `NordicServiceDiscovery::BLE_DB_DISCOVERY_MAX_SRV`. -/
abbrev BLE_DB_DISCOVERY_MAX_SRV : Nat := 4

/-- Constant `NordicServiceDiscovery::BLE_DB_DISCOVERY_MAX_CHAR_PER_SRV`. -/
abbrev BLE_DB_DISCOVERY_MAX_CHAR_PER_SRV : Nat := 4

/-- Constant `NordicServiceDiscovery::SRV_DISC_START_HANDLE`. -/
def SRV_DISC_START_HANDLE : Nat := 0x0001

/-- The data members of `NordicServiceDiscovery`, those inherited from
`ServiceDiscovery` first.  A callback is a function pointer and is carried as
its address (`0` for `NULL`).  The two caches are arrays of fixed length. -/
structure NordicServiceDiscovery where
  connHandle : Gap.Handle_t
  matchingServiceUUID : UUID
  serviceCallback : Nat
  matchingCharacteristicUUID : UUID
  characteristicCallback : Nat
  serviceIndex : Nat
  numServices : Nat
  characteristicIndex : Nat
  numCharacteristics : Nat
  sDiscoveryActive : Bool
  cDiscoveryActive : Bool
  services : Fin BLE_DB_DISCOVERY_MAX_SRV → DiscoveredService
  characteristics : Fin BLE_DB_DISCOVERY_MAX_CHAR_PER_SRV → DiscoveredCharacteristic

namespace NordicServiceDiscovery

/-- Member function `terminateServiceDiscovery()`; the `printf` has no effect on the state. -/
def terminateServiceDiscovery (s : NordicServiceDiscovery) : NordicServiceDiscovery :=
  { s with sDiscoveryActive := false, cDiscoveryActive := false }

/-- Member function `terminateCharacteristicDiscovery()`; `serviceIndex++` on a `uint8_t`. -/
def terminateCharacteristicDiscovery (s : NordicServiceDiscovery) : NordicServiceDiscovery :=
  { s with
    cDiscoveryActive := false
    sDiscoveryActive := true
    serviceIndex := (s.serviceIndex + 1) % 256 }

/-- Member function `resetDiscoveredServices()`. -/
def resetDiscoveredServices (s : NordicServiceDiscovery) : NordicServiceDiscovery :=
  { s with
    numServices := 0
    serviceIndex := 0
    services := fun _ => DiscoveredService.zeroed }

/-- Member function `resetDiscoveredCharacteristics()`. -/
def resetDiscoveredCharacteristics (s : NordicServiceDiscovery) : NordicServiceDiscovery :=
  { s with
    numCharacteristics := 0
    characteristicIndex := 0
    characteristics := fun _ => DiscoveredCharacteristic.zeroed }

/-- Member function `serviceDiscoveryStarted(connectionHandle)`. -/
def serviceDiscoveryStarted (s : NordicServiceDiscovery) (connectionHandle : Gap.Handle_t) :
    NordicServiceDiscovery :=
  let s1 := { s with connHandle := connectionHandle }
  let s2 := resetDiscoveredServices s1
  { s2 with sDiscoveryActive := true, cDiscoveryActive := false }

/-- Member function `characteristicDiscoveryStarted(connectionHandle)`. -/
def characteristicDiscoveryStarted (s : NordicServiceDiscovery)
    (connectionHandle : Gap.Handle_t) : NordicServiceDiscovery :=
  let s1 := { s with connHandle := connectionHandle }
  let s2 := resetDiscoveredCharacteristics s1
  { s2 with cDiscoveryActive := true, sDiscoveryActive := false }

end NordicServiceDiscovery

/-- Modelled from the spec: the type `ble_error_t` is declared outside this
header; its values here are success and the error kinds named for the
discovery engine (InvalidState, InvalidRange, RequestRejected). -/
inductive ble_error_t where
  | BLE_ERROR_NONE
  | InvalidState
  | InvalidRange
  | RequestRejected
  deriving DecidableEq, Repr

namespace ServiceDiscovery

/-- Modelled from the spec: the body of `ServiceDiscovery::launch` is not in
this header, which only declares it.  As specified, `launch` fails with
`InvalidState` when a walk is already active and leaves the session as it is;
it fails when the link does not accept the request (`requestAccepted` is the
answer of the link layer), and otherwise its effect on the session is
`serviceDiscoveryStarted`.  The session left behind by a rejected request is
not specified; the model leaves it as it was. -/
def launch (s : NordicServiceDiscovery) (connectionHandle : Gap.Handle_t)
    (requestAccepted : Bool) : ble_error_t × NordicServiceDiscovery :=
  if s.sDiscoveryActive || s.cDiscoveryActive then
    (ble_error_t.InvalidState, s)
  else if requestAccepted then
    (ble_error_t.BLE_ERROR_NONE, s.serviceDiscoveryStarted connectionHandle)
  else
    (ble_error_t.RequestRejected, s)

end ServiceDiscovery

/-- The operations on a session that callers of the class sequence. -/
inductive SessionOp where
  | serviceDiscoveryStarted (connectionHandle : Gap.Handle_t)
  | characteristicDiscoveryStarted (connectionHandle : Gap.Handle_t)
  | terminateCharacteristicDiscovery
  | terminateServiceDiscovery
  deriving DecidableEq, Repr

namespace SessionOp

/-- Effect of one operation on the session. -/
def apply (op : SessionOp) (s : NordicServiceDiscovery) : NordicServiceDiscovery :=
  match op with
  | serviceDiscoveryStarted h => s.serviceDiscoveryStarted h
  | characteristicDiscoveryStarted h => s.characteristicDiscoveryStarted h
  | terminateCharacteristicDiscovery => s.terminateCharacteristicDiscovery
  | terminateServiceDiscovery => s.terminateServiceDiscovery

/-- Effect of a sequence of operations, first element first. -/
def run (ops : List SessionOp) (s : NordicServiceDiscovery) : NordicServiceDiscovery :=
  ops.foldl (fun st op => op.apply st) s

end SessionOp

/-- A session with every member zero: idle, empty caches. -/
def idleSession : NordicServiceDiscovery :=
  { connHandle := 0, matchingServiceUUID := 0, serviceCallback := 0,
    matchingCharacteristicUUID := 0, characteristicCallback := 0,
    serviceIndex := 0, numServices := 0, characteristicIndex := 0,
    numCharacteristics := 0, sDiscoveryActive := false, cDiscoveryActive := false,
    services := fun _ => DiscoveredService.zeroed,
    characteristics := fun _ => DiscoveredCharacteristic.zeroed }

/-- A session in the middle of a characteristic sub-walk: two cached services,
the second one being expanded, three cached characteristics. -/
def busySession : NordicServiceDiscovery :=
  { connHandle := 7, matchingServiceUUID := 0, serviceCallback := 1,
    matchingCharacteristicUUID := 0, characteristicCallback := 1,
    serviceIndex := 1, numServices := 2, characteristicIndex := 0,
    numCharacteristics := 3, sDiscoveryActive := false, cDiscoveryActive := true,
    services := fun i => { uuid := 0x1800 + i.val, startHandle := 1 + 8 * i.val,
                           endHandle := 8 + 8 * i.val },
    characteristics := fun i => { uuid := 0x2A00 + i.val,
                                  props := Properties_t.initProps 0x02,
                                  declHandle := 9 + 2 * i.val,
                                  valueHandle := 10 + 2 * i.val } }

/-- The three phases of a session. -/
inductive Phase where
  | Idle
  | ServiceDiscoveryActive
  | CharacteristicDiscoveryActive
  deriving DecidableEq, Repr

/-- The phase a session is in, read off its two flags; the combination with
both flags set is none of the three phases. -/
def NordicServiceDiscovery.phase (s : NordicServiceDiscovery) : Option Phase :=
  match s.sDiscoveryActive, s.cDiscoveryActive with
  | false, false => some Phase.Idle
  | true, false => some Phase.ServiceDiscoveryActive
  | false, true => some Phase.CharacteristicDiscoveryActive
  | true, true => none

/-- The cursor condition under which a characteristic sub-walk belongs to a
cached service: no sub-walk active, or `serviceIndex < numServices`. -/
def NordicServiceDiscovery.cursorInRange (s : NordicServiceDiscovery) : Prop :=
  s.cDiscoveryActive = true → s.serviceIndex < s.numServices

/-- A sequence of operations in which every `characteristicDiscoveryStarted` is
issued from a session whose cursor satisfies `serviceIndex < numServices`. -/
def SessionOp.cursorChecked : List SessionOp → NordicServiceDiscovery → Bool
  | [], _ => true
  | op :: ops, s =>
    (match op with
      | SessionOp.characteristicDiscoveryStarted _ => decide (s.serviceIndex < s.numServices)
      | _ => true) && SessionOp.cursorChecked ops (op.apply s)

/-- A session in the service phase holding a page of two cached services, none
expanded yet. -/
def pagedSession : NordicServiceDiscovery :=
  { connHandle := 7, matchingServiceUUID := 0, serviceCallback := 1,
    matchingCharacteristicUUID := 0, characteristicCallback := 1,
    serviceIndex := 0, numServices := 2, characteristicIndex := 0,
    numCharacteristics := 0, sDiscoveryActive := true, cDiscoveryActive := false,
    services := fun i => { uuid := 0x1800 + i.val, startHandle := 1 + 8 * i.val,
                           endHandle := 8 + 8 * i.val },
    characteristics := fun _ => DiscoveredCharacteristic.zeroed }

/-- A session whose 8-bit service cursor holds its largest value. -/
def saturatedSession : NordicServiceDiscovery :=
  { busySession with serviceIndex := 255 }

/-- The six inline member functions that write the session: the four sequenced
operations and the two cache resets. -/
inductive MemberOp where
  | resetDiscoveredServices
  | resetDiscoveredCharacteristics
  | serviceDiscoveryStarted (connectionHandle : Gap.Handle_t)
  | characteristicDiscoveryStarted (connectionHandle : Gap.Handle_t)
  | terminateCharacteristicDiscovery
  | terminateServiceDiscovery
  deriving DecidableEq, Repr

namespace MemberOp

/-- Effect of one member function on the session. -/
def apply (op : MemberOp) (s : NordicServiceDiscovery) : NordicServiceDiscovery :=
  match op with
  | resetDiscoveredServices => s.resetDiscoveredServices
  | resetDiscoveredCharacteristics => s.resetDiscoveredCharacteristics
  | serviceDiscoveryStarted h => s.serviceDiscoveryStarted h
  | characteristicDiscoveryStarted h => s.characteristicDiscoveryStarted h
  | terminateCharacteristicDiscovery => s.terminateCharacteristicDiscovery
  | terminateServiceDiscovery => s.terminateServiceDiscovery

/-- Effect of a sequence of member functions, first element first. -/
def run (ops : List MemberOp) (s : NordicServiceDiscovery) : NordicServiceDiscovery :=
  ops.foldl (fun st op => op.apply st) s

end MemberOp

/-- The capacity bounds of the two caches. -/
@[reducible] def NordicServiceDiscovery.withinCapacity (s : NordicServiceDiscovery) : Prop :=
  s.numServices ≤ BLE_DB_DISCOVERY_MAX_SRV ∧
    s.numCharacteristics ≤ BLE_DB_DISCOVERY_MAX_CHAR_PER_SRV

/-- One round of the walk over the cached services: a characteristic sub-walk
is started on connection `h` and then finished. -/
def NordicServiceDiscovery.walkRound (s : NordicServiceDiscovery) (h : Gap.Handle_t) :
    NordicServiceDiscovery :=
  (s.characteristicDiscoveryStarted h).terminateCharacteristicDiscovery

/-- As many rounds as the list has handles, one handle per round. -/
def NordicServiceDiscovery.walkRounds (s : NordicServiceDiscovery)
    (hs : List Gap.Handle_t) : NordicServiceDiscovery :=
  hs.foldl (fun st h => st.walkRound h) s

/-! ## Property flags -/

/-- A one-bit field initialised from `x &&& 2 ^ (i + 1)` is always zero: the
only bit that can be set is not the lowest one. -/
theorem Properties_t.bitfield1_and_two_pow_succ (x i : Nat) :
    Properties_t.bitfield1 (x &&& 2 ^ (i + 1)) = 0 := by
  unfold Properties_t.bitfield1
  rw [Nat.and_two_pow, Nat.pow_succ, ← Nat.mul_assoc]
  exact Nat.mul_mod_left _ 2

/-- What `Properties_t(props)` stores, for every `props`: `broadcast` follows
its mask bit, and the six other flags are cleared whatever `props` is. -/
theorem Properties_t.initProps_flags (props : Nat) :
    ((Properties_t.initProps props).broadcast = 1 ↔
        props &&& Properties_t.BROADCAST_PROPERTY_MASK ≠ 0) ∧
    (Properties_t.initProps props).read = 0 ∧
    (Properties_t.initProps props).write_wo_resp = 0 ∧
    (Properties_t.initProps props).write = 0 ∧
    (Properties_t.initProps props).notify = 0 ∧
    (Properties_t.initProps props).indicate = 0 ∧
    (Properties_t.initProps props).auth_signed_wr = 0 := by
  refine ⟨?_, ?_, ?_, ?_, ?_, ?_, ?_⟩
  · simp only [Properties_t.initProps, Properties_t.bitfield1,
      Properties_t.BROADCAST_PROPERTY_MASK, Nat.and_one_is_mod]
    omega
  · exact Properties_t.bitfield1_and_two_pow_succ props 0
  · exact Properties_t.bitfield1_and_two_pow_succ props 1
  · exact Properties_t.bitfield1_and_two_pow_succ props 2
  · exact Properties_t.bitfield1_and_two_pow_succ props 3
  · exact Properties_t.bitfield1_and_two_pow_succ props 4
  · exact Properties_t.bitfield1_and_two_pow_succ props 5

/-- C1, evaluated on the code: for `props = 0x02` (only the read bit), the mask
test `props & READ_PROPERTY_MASK` is non-zero, yet `Properties_t(props)` stores
`read = 0` and is the same record as the default-constructed one; likewise
`props = 0x7E` (every bit but broadcast) leaves all seven flags cleared. -/
theorem Properties_t.initProps_read_bit_lost :
    (0x02 &&& Properties_t.READ_PROPERTY_MASK ≠ 0) ∧
    (Properties_t.initProps 0x02).read = 0 ∧
    Properties_t.initProps 0x02 = Properties_t.init ∧
    Properties_t.initProps 0x7E = Properties_t.init := by
  decide

/-! ## Starting and ending a walk -/

/-- C2: whatever the session was, `serviceDiscoveryStarted(h)` leaves
`connHandle = h`, `serviceIndex = 0`, `numServices = 0`, every entry of the
services cache zeroed, `sDiscoveryActive = true` and `cDiscoveryActive = false`. -/
theorem NordicServiceDiscovery.serviceDiscoveryStarted_spec
    (s : NordicServiceDiscovery) (h : Gap.Handle_t) :
    (s.serviceDiscoveryStarted h).connHandle = h ∧
    (s.serviceDiscoveryStarted h).serviceIndex = 0 ∧
    (s.serviceDiscoveryStarted h).numServices = 0 ∧
    (∀ i : Fin BLE_DB_DISCOVERY_MAX_SRV,
      (s.serviceDiscoveryStarted h).services i = DiscoveredService.zeroed) ∧
    (s.serviceDiscoveryStarted h).sDiscoveryActive = true ∧
    (s.serviceDiscoveryStarted h).cDiscoveryActive = false :=
  ⟨rfl, rfl, rfl, fun _ => rfl, rfl, rfl⟩

/-- The state effect `serviceDiscoveryStarted` has no guard of its own: applied
to a session with a walk in progress it resets the service cursor and count. -/
theorem NordicServiceDiscovery.serviceDiscoveryStarted_unguarded :
    busySession.cDiscoveryActive = true ∧
    busySession.serviceIndex = 1 ∧ busySession.numServices = 2 ∧
    (busySession.serviceDiscoveryStarted 7).serviceIndex = 0 ∧
    (busySession.serviceDiscoveryStarted 7).numServices = 0 := by
  decide

/-- C3: while a walk is active (`sDiscoveryActive` or `cDiscoveryActive`),
`launch` reports `InvalidState` and leaves `serviceIndex`, `numServices`,
`characteristicIndex`, `numCharacteristics` and both caches as they were. -/
theorem ServiceDiscovery.launch_while_active
    (s : NordicServiceDiscovery) (h : Gap.Handle_t) (requestAccepted : Bool)
    (hactive : s.sDiscoveryActive = true ∨ s.cDiscoveryActive = true) :
    (ServiceDiscovery.launch s h requestAccepted).1 = ble_error_t.InvalidState ∧
    (ServiceDiscovery.launch s h requestAccepted).2.serviceIndex = s.serviceIndex ∧
    (ServiceDiscovery.launch s h requestAccepted).2.numServices = s.numServices ∧
    (ServiceDiscovery.launch s h requestAccepted).2.characteristicIndex
      = s.characteristicIndex ∧
    (ServiceDiscovery.launch s h requestAccepted).2.numCharacteristics
      = s.numCharacteristics ∧
    (ServiceDiscovery.launch s h requestAccepted).2.services = s.services ∧
    (ServiceDiscovery.launch s h requestAccepted).2.characteristics
      = s.characteristics := by
  have hor : (s.sDiscoveryActive || s.cDiscoveryActive) = true := by
    rcases hactive with hs | hc
    · rw [hs]; rfl
    · rw [hc]; exact Bool.or_true _
  unfold ServiceDiscovery.launch
  rw [if_pos hor]
  exact ⟨rfl, rfl, rfl, rfl, rfl, rfl, rfl⟩

/-- C3 at a session expanding its second service: a second `launch` is refused
and the cursors stay at `serviceIndex = 1`, `numServices = 2`. -/
theorem ServiceDiscovery.launch_while_active_witness :
    (busySession.sDiscoveryActive = true ∨ busySession.cDiscoveryActive = true) ∧
    (ServiceDiscovery.launch busySession 7 true).1 = ble_error_t.InvalidState ∧
    (ServiceDiscovery.launch busySession 7 true).2.serviceIndex = 1 ∧
    (ServiceDiscovery.launch busySession 7 true).2.numServices = 2 :=
  have hw := ServiceDiscovery.launch_while_active busySession 7 true (Or.inr rfl)
  ⟨Or.inr rfl, hw.1, hw.2.1, hw.2.2.1⟩

/-- C4: whatever the session was, after `terminateServiceDiscovery` both phase
flags are false. -/
theorem NordicServiceDiscovery.terminateServiceDiscovery_idle
    (s : NordicServiceDiscovery) :
    s.terminateServiceDiscovery.sDiscoveryActive = false ∧
    s.terminateServiceDiscovery.cDiscoveryActive = false :=
  ⟨rfl, rfl⟩

/-- C5 fails on the code: terminating a session that holds two cached services
and three cached characteristics leaves the counts at two and three. -/
theorem NordicServiceDiscovery.terminateServiceDiscovery_keeps_counts :
    ¬ (busySession.terminateServiceDiscovery.numServices = 0 ∧
       busySession.terminateServiceDiscovery.numCharacteristics = 0 ∧
       (∀ i : Fin BLE_DB_DISCOVERY_MAX_SRV,
         busySession.terminateServiceDiscovery.services i = DiscoveredService.zeroed) ∧
       (∀ i : Fin BLE_DB_DISCOVERY_MAX_CHAR_PER_SRV,
         busySession.terminateServiceDiscovery.characteristics i
           = DiscoveredCharacteristic.zeroed)) :=
  fun hall => absurd hall.1 (by decide)

/-- C5 as amended: `terminateServiceDiscovery` does not touch the caches; it
leaves `numServices`, `numCharacteristics` and every entry of the services and
characteristics caches as they were. -/
theorem NordicServiceDiscovery.terminateServiceDiscovery_caches
    (s : NordicServiceDiscovery) :
    s.terminateServiceDiscovery.numServices = s.numServices ∧
    s.terminateServiceDiscovery.numCharacteristics = s.numCharacteristics ∧
    (∀ i : Fin BLE_DB_DISCOVERY_MAX_SRV,
      s.terminateServiceDiscovery.services i = s.services i) ∧
    (∀ i : Fin BLE_DB_DISCOVERY_MAX_CHAR_PER_SRV,
      s.terminateServiceDiscovery.characteristics i = s.characteristics i) :=
  ⟨rfl, rfl, fun _ => rfl, fun _ => rfl⟩

/-- C6: on a session whose two phase flags are false `terminateServiceDiscovery`
changes nothing, and on every session terminating twice equals terminating
once. -/
theorem NordicServiceDiscovery.terminateServiceDiscovery_idempotent
    (s : NordicServiceDiscovery) :
    ((s.sDiscoveryActive = false ∧ s.cDiscoveryActive = false) →
      s.terminateServiceDiscovery = s) ∧
    s.terminateServiceDiscovery.terminateServiceDiscovery
      = s.terminateServiceDiscovery := by
  refine ⟨fun hidle => ?_, rfl⟩
  cases s
  simp only [NordicServiceDiscovery.terminateServiceDiscovery]
  simp_all

/-- C6 at the all-zero idle session: terminating it returns the same session. -/
theorem NordicServiceDiscovery.terminateServiceDiscovery_idempotent_witness :
    (idleSession.sDiscoveryActive = false ∧ idleSession.cDiscoveryActive = false) ∧
    idleSession.terminateServiceDiscovery = idleSession :=
  ⟨⟨rfl, rfl⟩,
    (NordicServiceDiscovery.terminateServiceDiscovery_idempotent idleSession).1 ⟨rfl, rfl⟩⟩

/-- C7: whatever the session was, `characteristicDiscoveryStarted(h)` leaves
`characteristicIndex = 0`, `numCharacteristics = 0`, every entry of the
characteristics cache zeroed, `cDiscoveryActive = true` and
`sDiscoveryActive = false`. -/
theorem NordicServiceDiscovery.characteristicDiscoveryStarted_spec
    (s : NordicServiceDiscovery) (h : Gap.Handle_t) :
    (s.characteristicDiscoveryStarted h).characteristicIndex = 0 ∧
    (s.characteristicDiscoveryStarted h).numCharacteristics = 0 ∧
    (∀ i : Fin BLE_DB_DISCOVERY_MAX_CHAR_PER_SRV,
      (s.characteristicDiscoveryStarted h).characteristics i
        = DiscoveredCharacteristic.zeroed) ∧
    (s.characteristicDiscoveryStarted h).cDiscoveryActive = true ∧
    (s.characteristicDiscoveryStarted h).sDiscoveryActive = false :=
  ⟨rfl, rfl, fun _ => rfl, rfl, rfl⟩

/-- C8: when `serviceIndex < numServices` and
`numServices ≤ BLE_DB_DISCOVERY_MAX_SRV`, `terminateCharacteristicDiscovery`
leaves `serviceIndex` exactly one higher, the 8-bit counter not wrapping, with
`sDiscoveryActive = true` and `cDiscoveryActive = false`. -/
theorem NordicServiceDiscovery.terminateCharacteristicDiscovery_advances
    (s : NordicServiceDiscovery)
    (hidx : s.serviceIndex < s.numServices)
    (hcap : s.numServices ≤ BLE_DB_DISCOVERY_MAX_SRV) :
    s.terminateCharacteristicDiscovery.serviceIndex = s.serviceIndex + 1 ∧
    s.terminateCharacteristicDiscovery.sDiscoveryActive = true ∧
    s.terminateCharacteristicDiscovery.cDiscoveryActive = false := by
  refine ⟨?_, rfl, rfl⟩
  show (s.serviceIndex + 1) % 256 = s.serviceIndex + 1
  have hlt : s.serviceIndex + 1 < 256 := by
    have h4 : s.numServices ≤ 4 := hcap
    omega
  exact Nat.mod_eq_of_lt hlt

/-- C8 at a session expanding the second of two cached services: the cursor
moves from one to two. -/
theorem NordicServiceDiscovery.terminateCharacteristicDiscovery_advances_witness :
    busySession.serviceIndex < busySession.numServices ∧
    busySession.numServices ≤ BLE_DB_DISCOVERY_MAX_SRV ∧
    busySession.terminateCharacteristicDiscovery.serviceIndex = 2 ∧
    busySession.terminateCharacteristicDiscovery.sDiscoveryActive = true ∧
    busySession.terminateCharacteristicDiscovery.cDiscoveryActive = false :=
  ⟨by decide, by decide,
    NordicServiceDiscovery.terminateCharacteristicDiscovery_advances busySession
      (by decide) (by decide)⟩

/-! ## Phase flags and cursor invariants -/

/-- After any single operation the two phase flags are not both set. -/
theorem SessionOp.apply_flags_exclusive (op : SessionOp) (s : NordicServiceDiscovery) :
    ¬ ((op.apply s).sDiscoveryActive = true ∧ (op.apply s).cDiscoveryActive = true) := by
  cases op <;>
    simp [SessionOp.apply, NordicServiceDiscovery.serviceDiscoveryStarted,
      NordicServiceDiscovery.characteristicDiscoveryStarted,
      NordicServiceDiscovery.terminateCharacteristicDiscovery,
      NordicServiceDiscovery.terminateServiceDiscovery,
      NordicServiceDiscovery.resetDiscoveredServices,
      NordicServiceDiscovery.resetDiscoveredCharacteristics]

/-- Running a sequence of operations keeps the flags exclusive once they are. -/
theorem SessionOp.run_flags_exclusive (ops : List SessionOp) (s : NordicServiceDiscovery)
    (hs : ¬ (s.sDiscoveryActive = true ∧ s.cDiscoveryActive = true)) :
    ¬ ((SessionOp.run ops s).sDiscoveryActive = true ∧
       (SessionOp.run ops s).cDiscoveryActive = true) := by
  induction ops generalizing s with
  | nil => exact hs
  | cons op rest ih =>
    show ¬ ((SessionOp.run rest (op.apply s)).sDiscoveryActive = true ∧
            (SessionOp.run rest (op.apply s)).cDiscoveryActive = true)
    exact ih (op.apply s) (SessionOp.apply_flags_exclusive op s)

/-- A session whose flags are not both set is in one of the three phases. -/
theorem NordicServiceDiscovery.phase_of_exclusive (s : NordicServiceDiscovery)
    (hs : ¬ (s.sDiscoveryActive = true ∧ s.cDiscoveryActive = true)) :
    s.phase = some Phase.Idle ∨ s.phase = some Phase.ServiceDiscoveryActive ∨
      s.phase = some Phase.CharacteristicDiscoveryActive := by
  unfold NordicServiceDiscovery.phase
  cases hsa : s.sDiscoveryActive <;> cases hca : s.cDiscoveryActive <;> simp_all

/-- C9: from any session, arbitrary ones included, each of
`serviceDiscoveryStarted`, `characteristicDiscoveryStarted`,
`terminateCharacteristicDiscovery` and `terminateServiceDiscovery` yields a
session whose two phase flags are not both true; and every session reached
from `serviceDiscoveryStarted` by a sequence of these operations is in exactly
one of the phases Idle, ServiceDiscoveryActive, CharacteristicDiscoveryActive. -/
theorem NordicServiceDiscovery.phase_flags_exclusive :
    (∀ (s : NordicServiceDiscovery) (op : SessionOp),
      ¬ ((op.apply s).sDiscoveryActive = true ∧ (op.apply s).cDiscoveryActive = true)) ∧
    (∀ (s : NordicServiceDiscovery) (h : Gap.Handle_t) (ops : List SessionOp),
      ¬ ((SessionOp.run ops (s.serviceDiscoveryStarted h)).sDiscoveryActive = true ∧
         (SessionOp.run ops (s.serviceDiscoveryStarted h)).cDiscoveryActive = true) ∧
      ((SessionOp.run ops (s.serviceDiscoveryStarted h)).phase = some Phase.Idle ∨
       (SessionOp.run ops (s.serviceDiscoveryStarted h)).phase
         = some Phase.ServiceDiscoveryActive ∨
       (SessionOp.run ops (s.serviceDiscoveryStarted h)).phase
         = some Phase.CharacteristicDiscoveryActive)) := by
  refine ⟨fun s op => SessionOp.apply_flags_exclusive op s, fun s h ops => ?_⟩
  have hex := SessionOp.run_flags_exclusive ops (s.serviceDiscoveryStarted h)
    (SessionOp.apply_flags_exclusive (SessionOp.serviceDiscoveryStarted h) s)
  exact ⟨hex, NordicServiceDiscovery.phase_of_exclusive _ hex⟩

/-- C10 fails on the code: right after `serviceDiscoveryStarted` the page is
empty, and `characteristicDiscoveryStarted` activates the characteristic phase
with `serviceIndex = numServices = 0`. -/
theorem SessionOp.cursor_not_below_count :
    (SessionOp.run [SessionOp.characteristicDiscoveryStarted 7]
        (idleSession.serviceDiscoveryStarted 7)).cDiscoveryActive = true ∧
    ¬ ((SessionOp.run [SessionOp.characteristicDiscoveryStarted 7]
          (idleSession.serviceDiscoveryStarted 7)).serviceIndex
        < (SessionOp.run [SessionOp.characteristicDiscoveryStarted 7]
          (idleSession.serviceDiscoveryStarted 7)).numServices) := by
  decide

/-- One operation keeps the cursor condition when a
`characteristicDiscoveryStarted` is only issued with `serviceIndex < numServices`. -/
theorem SessionOp.apply_cursorInRange (op : SessionOp) (s : NordicServiceDiscovery)
    (hchk : SessionOp.cursorChecked [op] s = true) :
    (op.apply s).cursorInRange := by
  cases op with
  | serviceDiscoveryStarted h => intro hc; exact absurd hc (by simp [SessionOp.apply,
      NordicServiceDiscovery.serviceDiscoveryStarted])
  | characteristicDiscoveryStarted h =>
    intro _
    simpa [SessionOp.cursorChecked] using hchk
  | terminateCharacteristicDiscovery => intro hc; exact absurd hc (by simp [SessionOp.apply,
      NordicServiceDiscovery.terminateCharacteristicDiscovery])
  | terminateServiceDiscovery => intro hc; exact absurd hc (by simp [SessionOp.apply,
      NordicServiceDiscovery.terminateServiceDiscovery])

/-- C10 as amended: from a session satisfying the cursor condition, any
sequence of the four operations in which `characteristicDiscoveryStarted` is
only issued with `serviceIndex < numServices` ends in a session where
`cDiscoveryActive = true` implies `serviceIndex < numServices`. -/
theorem SessionOp.run_cursorInRange (ops : List SessionOp) (s : NordicServiceDiscovery)
    (hs : s.cDiscoveryActive = true → s.serviceIndex < s.numServices)
    (hchk : SessionOp.cursorChecked ops s = true) :
    (SessionOp.run ops s).cDiscoveryActive = true →
      (SessionOp.run ops s).serviceIndex < (SessionOp.run ops s).numServices := by
  induction ops generalizing s with
  | nil => exact hs
  | cons op rest ih =>
    have hsplit : SessionOp.cursorChecked [op] s = true ∧
        SessionOp.cursorChecked rest (op.apply s) = true := by
      simp only [SessionOp.cursorChecked, Bool.and_eq_true, Bool.and_true] at hchk ⊢
      exact hchk
    exact ih (op.apply s) (SessionOp.apply_cursorInRange op s hsplit.1) hsplit.2

/-- C10 as amended, on a page of two services: expanding the first, finishing
it and expanding the second leaves the characteristic phase active with
`serviceIndex = 1 < 2 = numServices`. -/
theorem SessionOp.run_cursorInRange_witness :
    (SessionOp.run [SessionOp.characteristicDiscoveryStarted 7,
        SessionOp.terminateCharacteristicDiscovery,
        SessionOp.characteristicDiscoveryStarted 7] pagedSession).cDiscoveryActive = true ∧
    (SessionOp.run [SessionOp.characteristicDiscoveryStarted 7,
        SessionOp.terminateCharacteristicDiscovery,
        SessionOp.characteristicDiscoveryStarted 7] pagedSession).serviceIndex
      < (SessionOp.run [SessionOp.characteristicDiscoveryStarted 7,
        SessionOp.terminateCharacteristicDiscovery,
        SessionOp.characteristicDiscoveryStarted 7] pagedSession).numServices :=
  ⟨by decide,
    SessionOp.run_cursorInRange _ pagedSession (by decide) (by decide) (by decide)⟩

/-! ## Cursors, connection handle and caches across operations -/

/-- C11 fails on the code: with the 8-bit cursor at 255,
`terminateCharacteristicDiscovery` wraps it to 0, which is lower. -/
theorem NordicServiceDiscovery.serviceIndex_wraps :
    saturatedSession.serviceIndex = 255 ∧
    saturatedSession.terminateCharacteristicDiscovery.serviceIndex = 0 ∧
    ¬ (saturatedSession.terminateCharacteristicDiscovery.serviceIndex
        ≥ saturatedSession.serviceIndex) := by
  decide

/-- C11 as amended: `characteristicDiscoveryStarted` and
`terminateServiceDiscovery` leave `serviceIndex` unchanged, and as long as the
cursor is below 255, the largest 8-bit value,
`terminateCharacteristicDiscovery` leaves it exactly one higher, hence greater
than or equal to what it was. -/
theorem NordicServiceDiscovery.serviceIndex_monotone
    (s : NordicServiceDiscovery) (h : Gap.Handle_t) :
    (s.characteristicDiscoveryStarted h).serviceIndex = s.serviceIndex ∧
    s.terminateServiceDiscovery.serviceIndex = s.serviceIndex ∧
    (s.serviceIndex < 255 →
      s.terminateCharacteristicDiscovery.serviceIndex = s.serviceIndex + 1 ∧
      s.terminateCharacteristicDiscovery.serviceIndex ≥ s.serviceIndex) := by
  refine ⟨rfl, rfl, fun hlt => ?_⟩
  have hstep : s.terminateCharacteristicDiscovery.serviceIndex = s.serviceIndex + 1 := by
    show (s.serviceIndex + 1) % 256 = s.serviceIndex + 1
    exact Nat.mod_eq_of_lt (by omega)
  exact ⟨hstep, by rw [hstep]; exact Nat.le_succ _⟩

/-- C11 as amended, at a session expanding the second of two services: the
cursor goes from one to two, and starting a sub-walk or terminating the walk
leaves it at one. -/
theorem NordicServiceDiscovery.serviceIndex_monotone_witness :
    busySession.serviceIndex < 255 ∧
    busySession.terminateCharacteristicDiscovery.serviceIndex = 2 ∧
    busySession.terminateCharacteristicDiscovery.serviceIndex
      ≥ busySession.serviceIndex ∧
    (busySession.characteristicDiscoveryStarted 7).serviceIndex = 1 ∧
    busySession.terminateServiceDiscovery.serviceIndex = 1 :=
  have hw := NordicServiceDiscovery.serviceIndex_monotone busySession 7
  ⟨by decide, (hw.2.2 (by decide)).1, (hw.2.2 (by decide)).2, hw.1, hw.2.1⟩

/-- C12 fails on the code: `characteristicDiscoveryStarted(9)` on a session
bound to connection 7 leaves `connHandle = 9`. -/
theorem NordicServiceDiscovery.characteristicDiscoveryStarted_rebinds :
    busySession.connHandle = 7 ∧
    (busySession.characteristicDiscoveryStarted 9).connHandle = 9 ∧
    (busySession.characteristicDiscoveryStarted 9).connHandle
      ≠ busySession.connHandle := by
  decide

/-- C12 as amended: `terminateCharacteristicDiscovery`,
`terminateServiceDiscovery` and `resetDiscoveredServices` leave `connHandle` as
it was; `characteristicDiscoveryStarted(h)` stores `h` in `connHandle`, so it
keeps `connHandle` when called with the handle the session is bound to. -/
theorem NordicServiceDiscovery.connHandle_frame
    (s : NordicServiceDiscovery) (h : Gap.Handle_t) :
    s.terminateCharacteristicDiscovery.connHandle = s.connHandle ∧
    s.terminateServiceDiscovery.connHandle = s.connHandle ∧
    s.resetDiscoveredServices.connHandle = s.connHandle ∧
    (s.characteristicDiscoveryStarted h).connHandle = h ∧
    (s.characteristicDiscoveryStarted s.connHandle).connHandle = s.connHandle :=
  ⟨rfl, rfl, rfl, rfl, rfl⟩

/-- C13 fails on the code: `serviceDiscoveryStarted` on a session holding three
cached characteristics leaves `numCharacteristics = 3`. -/
theorem NordicServiceDiscovery.serviceDiscoveryStarted_keeps_characteristics :
    ¬ ((busySession.serviceDiscoveryStarted 7).serviceIndex = 0 ∧
       (busySession.serviceDiscoveryStarted 7).numServices = 0 ∧
       (busySession.serviceDiscoveryStarted 7).characteristicIndex = 0 ∧
       (busySession.serviceDiscoveryStarted 7).numCharacteristics = 0 ∧
       (∀ i : Fin BLE_DB_DISCOVERY_MAX_CHAR_PER_SRV,
         (busySession.serviceDiscoveryStarted 7).characteristics i
           = DiscoveredCharacteristic.zeroed)) :=
  fun hall => absurd hall.2.2.2.1 (by decide)

/-- C13 as amended: `serviceDiscoveryStarted(h)` resets the service cursor and
cache (`serviceIndex = 0`, `numServices = 0`, every services entry zeroed) and
leaves `characteristicIndex`, `numCharacteristics` and every entry of the
characteristics cache as they were. -/
theorem NordicServiceDiscovery.serviceDiscoveryStarted_resets_services_only
    (s : NordicServiceDiscovery) (h : Gap.Handle_t) :
    (s.serviceDiscoveryStarted h).serviceIndex = 0 ∧
    (s.serviceDiscoveryStarted h).numServices = 0 ∧
    (∀ i : Fin BLE_DB_DISCOVERY_MAX_SRV,
      (s.serviceDiscoveryStarted h).services i = DiscoveredService.zeroed) ∧
    (s.serviceDiscoveryStarted h).characteristicIndex = s.characteristicIndex ∧
    (s.serviceDiscoveryStarted h).numCharacteristics = s.numCharacteristics ∧
    (∀ i : Fin BLE_DB_DISCOVERY_MAX_CHAR_PER_SRV,
      (s.serviceDiscoveryStarted h).characteristics i = s.characteristics i) :=
  ⟨rfl, rfl, fun _ => rfl, rfl, rfl, fun _ => rfl⟩

/-! ## Capacity bounds and progress of the walk -/

/-- Each member function keeps the capacity bounds: it leaves a count as it was
or sets it to zero. -/
theorem MemberOp.apply_withinCapacity (op : MemberOp) (s : NordicServiceDiscovery)
    (hs : s.withinCapacity) : (op.apply s).withinCapacity := by
  cases op with
  | resetDiscoveredServices => exact ⟨Nat.zero_le _, hs.2⟩
  | resetDiscoveredCharacteristics => exact ⟨hs.1, Nat.zero_le _⟩
  | serviceDiscoveryStarted h => exact ⟨Nat.zero_le _, hs.2⟩
  | characteristicDiscoveryStarted h => exact ⟨hs.1, Nat.zero_le _⟩
  | terminateCharacteristicDiscovery => exact hs
  | terminateServiceDiscovery => exact hs

/-- A sequence of member functions keeps the capacity bounds. -/
theorem MemberOp.run_withinCapacity (ops : List MemberOp) (s : NordicServiceDiscovery)
    (hs : s.withinCapacity) : (MemberOp.run ops s).withinCapacity := by
  induction ops generalizing s with
  | nil => exact hs
  | cons op rest ih =>
    show (MemberOp.run rest (op.apply s)).withinCapacity
    exact ih (op.apply s) (MemberOp.apply_withinCapacity op s hs)

/-- C14: when `numServices ≤ BLE_DB_DISCOVERY_MAX_SRV` and
`numCharacteristics ≤ BLE_DB_DISCOVERY_MAX_CHAR_PER_SRV` hold in a session they
hold after each of the six member functions; and whatever the session was,
they hold in every session reached from `serviceDiscoveryStarted` followed by
`characteristicDiscoveryStarted` through any sequence of these functions. -/
theorem MemberOp.capacity_invariant (s : NordicServiceDiscovery) :
    ((s.numServices ≤ BLE_DB_DISCOVERY_MAX_SRV ∧
        s.numCharacteristics ≤ BLE_DB_DISCOVERY_MAX_CHAR_PER_SRV) →
      ∀ op : MemberOp,
        (op.apply s).numServices ≤ BLE_DB_DISCOVERY_MAX_SRV ∧
        (op.apply s).numCharacteristics ≤ BLE_DB_DISCOVERY_MAX_CHAR_PER_SRV) ∧
    (∀ (h h2 : Gap.Handle_t) (ops : List MemberOp),
      (MemberOp.run ops
          ((s.serviceDiscoveryStarted h).characteristicDiscoveryStarted h2)).numServices
        ≤ BLE_DB_DISCOVERY_MAX_SRV ∧
      (MemberOp.run ops
          ((s.serviceDiscoveryStarted h).characteristicDiscoveryStarted h2)).numCharacteristics
        ≤ BLE_DB_DISCOVERY_MAX_CHAR_PER_SRV) := by
  refine ⟨fun hs op => MemberOp.apply_withinCapacity op s hs, fun h h2 ops => ?_⟩
  exact MemberOp.run_withinCapacity ops _ ⟨Nat.zero_le _, Nat.zero_le _⟩

/-- C14 at a session holding two services and three characteristics: the bounds
hold before and after `terminateCharacteristicDiscovery`. -/
theorem MemberOp.capacity_invariant_witness :
    (busySession.numServices ≤ BLE_DB_DISCOVERY_MAX_SRV ∧
      busySession.numCharacteristics ≤ BLE_DB_DISCOVERY_MAX_CHAR_PER_SRV) ∧
    (MemberOp.terminateCharacteristicDiscovery.apply busySession).numServices
      ≤ BLE_DB_DISCOVERY_MAX_SRV ∧
    (MemberOp.terminateCharacteristicDiscovery.apply busySession).numCharacteristics
      ≤ BLE_DB_DISCOVERY_MAX_CHAR_PER_SRV :=
  ⟨by decide,
    (MemberOp.capacity_invariant busySession).1 (by decide)
      MemberOp.terminateCharacteristicDiscovery⟩

/-- As long as the 8-bit cursor does not overflow, `k` rounds advance it by `k`
and leave the service count as it was. -/
theorem NordicServiceDiscovery.walkRounds_cursor (hs : List Gap.Handle_t)
    (s : NordicServiceDiscovery) (hfit : s.serviceIndex + hs.length < 256) :
    (s.walkRounds hs).serviceIndex = s.serviceIndex + hs.length ∧
    (s.walkRounds hs).numServices = s.numServices := by
  induction hs generalizing s with
  | nil => exact ⟨rfl, rfl⟩
  | cons h rest ih =>
    have hlen : (h :: rest).length = rest.length + 1 := rfl
    rw [hlen] at hfit
    have hstep : (s.walkRound h).serviceIndex = s.serviceIndex + 1 := by
      show (s.serviceIndex + 1) % 256 = s.serviceIndex + 1
      exact Nat.mod_eq_of_lt (by omega)
    have hnum : (s.walkRound h).numServices = s.numServices := rfl
    have hrec := ih (s.walkRound h) (by rw [hstep]; omega)
    show ((s.walkRound h).walkRounds rest).serviceIndex = s.serviceIndex + (h :: rest).length ∧
      ((s.walkRound h).walkRounds rest).numServices = s.numServices
    rw [hrec.1, hrec.2, hstep, hnum, hlen]
    exact ⟨by omega, rfl⟩

/-- C15: from a session with `serviceIndex = 0` and
`numServices ≤ BLE_DB_DISCOVERY_MAX_SRV`, `k ≤ numServices` rounds of
`characteristicDiscoveryStarted; terminateCharacteristicDiscovery` leave
`serviceIndex = k` and `numServices` as it was, so the continuation test
`serviceIndex < numServices` holds exactly while `k < numServices` and fails
after `numServices` rounds; and a further round taken while the test holds
strictly decreases `numServices - serviceIndex`. -/
theorem NordicServiceDiscovery.walk_progress
    (s : NordicServiceDiscovery) (hs : List Gap.Handle_t)
    (hzero : s.serviceIndex = 0)
    (hcap : s.numServices ≤ BLE_DB_DISCOVERY_MAX_SRV)
    (hk : hs.length ≤ s.numServices) :
    (s.walkRounds hs).serviceIndex = hs.length ∧
    (s.walkRounds hs).numServices = s.numServices ∧
    ((s.walkRounds hs).serviceIndex < (s.walkRounds hs).numServices ↔
      hs.length < s.numServices) ∧
    (∀ h : Gap.Handle_t,
      (s.walkRounds hs).serviceIndex < (s.walkRounds hs).numServices →
      ((s.walkRounds hs).walkRound h).numServices
          - ((s.walkRounds hs).walkRound h).serviceIndex
        < (s.walkRounds hs).numServices - (s.walkRounds hs).serviceIndex) := by
  have h4 : s.numServices ≤ 4 := hcap
  have hcur := NordicServiceDiscovery.walkRounds_cursor hs s (by omega)
  rw [hzero, Nat.zero_add] at hcur
  refine ⟨hcur.1, hcur.2, ?_, fun h htest => ?_⟩
  · rw [hcur.1, hcur.2]
  · have hnext : ((s.walkRounds hs).walkRound h).serviceIndex
        = ((s.walkRounds hs).serviceIndex + 1) % 256 := rfl
    have hsame : ((s.walkRounds hs).walkRound h).numServices
        = (s.walkRounds hs).numServices := rfl
    rw [hnext, hsame, hcur.1, hcur.2] at *
    rw [Nat.mod_eq_of_lt (by omega)]
    omega

/-- C15 on a page of two services: two rounds leave `serviceIndex = 2`, where
the continuation test fails, and one round leaves `serviceIndex = 1`. -/
theorem NordicServiceDiscovery.walk_progress_witness :
    pagedSession.serviceIndex = 0 ∧
    pagedSession.numServices ≤ BLE_DB_DISCOVERY_MAX_SRV ∧
    [7, 7].length ≤ pagedSession.numServices ∧
    (pagedSession.walkRounds [7, 7]).serviceIndex = 2 ∧
    ¬ ((pagedSession.walkRounds [7, 7]).serviceIndex
        < (pagedSession.walkRounds [7, 7]).numServices) :=
  have hw := NordicServiceDiscovery.walk_progress pagedSession [7, 7]
    (by decide) (by decide) (by decide)
  ⟨by decide, by decide, by decide, hw.1, fun hlt => absurd (hw.2.2.1.mp hlt) (by decide)⟩

/-! ## Frame of the characteristic sub-walk and the record setters -/

/-- C16: `characteristicDiscoveryStarted` with any handle,
`resetDiscoveredCharacteristics` and `terminateCharacteristicDiscovery` leave
`numServices` and every entry of the services cache as they were, and the first
two also leave `serviceIndex` as it was. -/
theorem NordicServiceDiscovery.characteristic_walk_frame
    (s : NordicServiceDiscovery) (h : Gap.Handle_t) :
    ((s.characteristicDiscoveryStarted h).numServices = s.numServices ∧
      (∀ i : Fin BLE_DB_DISCOVERY_MAX_SRV,
        (s.characteristicDiscoveryStarted h).services i = s.services i) ∧
      (s.characteristicDiscoveryStarted h).serviceIndex = s.serviceIndex) ∧
    (s.resetDiscoveredCharacteristics.numServices = s.numServices ∧
      (∀ i : Fin BLE_DB_DISCOVERY_MAX_SRV,
        s.resetDiscoveredCharacteristics.services i = s.services i) ∧
      s.resetDiscoveredCharacteristics.serviceIndex = s.serviceIndex) ∧
    (s.terminateCharacteristicDiscovery.numServices = s.numServices ∧
      (∀ i : Fin BLE_DB_DISCOVERY_MAX_SRV,
        s.terminateCharacteristicDiscovery.services i = s.services i)) :=
  ⟨⟨rfl, fun _ => rfl, rfl⟩, ⟨rfl, fun _ => rfl, rfl⟩, ⟨rfl, fun _ => rfl⟩⟩

/-- C17: whatever a record held, `DiscoveredService::setup(uuid, start, end)`
leaves exactly `uuid`, `startHandle = start`, `endHandle = end`, and
`DiscoveredCharacteristic::setup(uuid, props, decl, value)` leaves exactly
`uuid`, `props`, `declHandle = decl`, `valueHandle = value`; the result does
not depend on the record it overwrites, and a second `setup` with the same
arguments changes nothing. -/
theorem DiscoveredService.setup_overwrites
    (d d2 : DiscoveredService) (c c2 : DiscoveredCharacteristic)
    (uuid : ShortUUIDBytes_t) (start endH decl value : Gap.Handle_t)
    (props : Properties_t) :
    (d.setup uuid start endH
        = { uuid := uuid, startHandle := start, endHandle := endH } ∧
      d.setup uuid start endH = d2.setup uuid start endH ∧
      (d.setup uuid start endH).setup uuid start endH = d.setup uuid start endH) ∧
    (c.setup uuid props decl value
        = { uuid := uuid, props := props, declHandle := decl, valueHandle := value } ∧
      c.setup uuid props decl value = c2.setup uuid props decl value ∧
      (c.setup uuid props decl value).setup uuid props decl value
        = c.setup uuid props decl value) :=
  ⟨⟨rfl, rfl, rfl⟩, ⟨rfl, rfl, rfl⟩⟩
